import Mathlib

/-!
Verification of the Sales-Tool backend (src/index.ts): a relay that issues
telephony client tokens (GET /token), routes inbound voice webhooks into
outbound dials (POST /voice), and bridges free-text objection messages to a
completion service over a realtime channel, persisting call logs and
objection logs in a document store.

The embedding below mirrors the single source file. HTTP handlers become
pure functions from their configuration, request and store state to a
response, a new store state and (for the realtime handler) a trace of
events. External collaborators (the document store write path, the
telephony SDK token constructor and serializer, the completion service) are
modelled by explicit oracles and by functions that follow their documented
behaviour, as the spec places their internals out of scope.
-/

set_option autoImplicit false

namespace SalesTool

/-! ## Environment configuration (lines 12-59 of src/index.ts)

Values read from process.env are strings or undefined; JS truthiness makes
both undefined and the empty string falsy in the startup checks. -/

structure Env where
  MONGO_URI : Option String
  TWILIO_ACCOUNT_SID : Option String
  TWILIO_AUTH_TOKEN : Option String
  TWILIO_API_KEY : Option String
  TWILIO_API_SECRET : Option String
  TWILIO_APP_SID : Option String
  TWILIO_PHONE_NUMBER : Option String
  OPENAI_API_KEY : Option String
  FRONTEND_URL : Option String
  PORT : Option String
deriving DecidableEq

/-- JS truthiness test on an optional environment string: undefined and the
empty string are falsy. -/
def falsy : Option String → Bool
  | none => true
  | some s => s == ""

/-- The startup guards of lines 31-59: the process exits (code 1) before
serving when MONGO_URI is falsy, when any of TWILIO_ACCOUNT_SID,
TWILIO_AUTH_TOKEN, TWILIO_PHONE_NUMBER is falsy, or when OPENAI_API_KEY is
falsy. No other variable is checked at startup. -/
def startupExits (env : Env) : Bool :=
  falsy env.MONGO_URI ||
  (falsy env.TWILIO_ACCOUNT_SID || falsy env.TWILIO_AUTH_TOKEN ||
    falsy env.TWILIO_PHONE_NUMBER) ||
  falsy env.OPENAI_API_KEY

/-! ## Document store records (lines 64-79)

callLogSchema: _id, phoneNumber, status are required strings; duration is an
optional number; timestamp defaults to the creation time (no claim concerns
its value, so it is omitted from the record). objectionSchema: message and
response are required strings. The document store itself is external; the
write path is modelled by the documented semantics of a save on a new
document: client-side required-field validation (a required string path
rejects a missing value and the empty string), then a single insert, which
fails with a duplicate-key error when a document with the same _id already
exists, since _id always carries a unique index. -/

structure CallLogRecord where
  _id : String
  phoneNumber : String
  status : String
  duration : Option Nat
deriving DecidableEq

structure ObjectionRecord where
  message : String
  response : String
deriving DecidableEq

inductive SaveError where
  | validationError
  | duplicateKeyError
  | writeError
deriving DecidableEq

/-- Field values as passed to the CallLog document constructor at lines
117-121; a missing request field arrives as undefined. -/
structure CallLogInput where
  _id : Option String
  phoneNumber : Option String
  status : Option String
deriving DecidableEq

/-- Required-field validation of callLogSchema: each required string path
must be present and non-empty. -/
def validateCallLog (d : CallLogInput) : Except SaveError CallLogRecord :=
  match d._id, d.phoneNumber, d.status with
  | some i, some p, some s =>
    if i == "" || p == "" || s == "" then .error .validationError
    else .ok { _id := i, phoneNumber := p, status := s, duration := none }
  | _, _, _ => .error .validationError

/-- callLog.save() at line 123 on a new document: validate, then insert;
inserting a document whose _id already exists in the collection fails with
a duplicate-key error and leaves the collection unchanged. -/
def saveCallLog (db : List CallLogRecord) (d : CallLogInput) :
    Except SaveError (List CallLogRecord) :=
  match validateCallLog d with
  | .error e => .error e
  | .ok r =>
    if db.any (fun x => x._id == r._id) then .error .duplicateKeyError
    else .ok (db ++ [r])

/-! ## POST /voice (lines 106-132) -/

/-- The webhook body fields consumed at line 108; either may be absent. -/
structure VoiceRequest where
  To : Option String
  CallSid : Option String
deriving DecidableEq

/-- The dial verb of the returned routing document (line 128): a fixed
caller id and the target number (absent when To was absent). -/
structure Dial where
  callerId : String
  number : Option String
deriving DecidableEq

/-- The TwiML routing document: a single dial verb. -/
structure VoiceResponseDoc where
  dial : Dial
deriving DecidableEq

structure VoiceHttpResponse where
  status : Nat
  contentType : String
  body : VoiceResponseDoc
deriving DecidableEq

/-- The prefix test To.startsWith("client:") of line 110, computed over the
character list (structurally, so that concrete instances evaluate; it agrees
with the byte-level prefix test of the runtime). -/
def startsWithClient (t : String) : Bool :=
  "client:".data.isPrefixOf t.data

/-- The validation condition of line 110: !To || To.startsWith("client:").
A true result is only logged; it does not abort the request. -/
def toInvalid : Option String → Bool
  | none => true
  | some t => t == "" || startsWithClient t

/-- The POST /voice handler (lines 106-132): build the CallLog document from
CallSid and To with status "initiated", save it fire-and-forget (a failed
save is logged and swallowed, leaving the collection unchanged), and respond
200 text/xml with a dial to To presenting TWILIO_PHONE_NUMBER as caller id,
on every path. -/
def handleVoice (TWILIO_PHONE_NUMBER : String) (db : List CallLogRecord)
    (req : VoiceRequest) : VoiceHttpResponse × List CallLogRecord :=
  let input : CallLogInput :=
    { _id := req.CallSid, phoneNumber := req.To, status := some "initiated" }
  let db2 : List CallLogRecord :=
    match saveCallLog db input with
    | .ok d => d
    | .error _ => db
  ({ status := 200, contentType := "text/xml",
     body := { dial := { callerId := TWILIO_PHONE_NUMBER, number := req.To } } },
   db2)

/-! ## GET /token (lines 82-103)

The telephony SDK token classes are external collaborators; the spec places
token construction and signing out of scope (sections 1 and 4.1). They are
modelled from their documented behaviour: the AccessToken constructor
rejects a falsy accountSid, keySid or secret (checked in that order), and
toJwt serializes the token as a compact JWT, a dot-separated header,
payload, signature, the payload carrying the issuer, subject, identity,
issued-at time, expiry (issued-at plus ttl) and grants. -/

structure VoiceGrant where
  outgoingApplicationSid : Option String
  incomingAllow : Bool
deriving DecidableEq

structure AccessToken where
  accountSid : String
  keySid : String
  secret : String
  identity : String
  ttl : Nat
  grants : List VoiceGrant
deriving DecidableEq

/-- Modelled from the spec: the telephony SDK AccessToken constructor (out
of scope, section 1) throws when accountSid, keySid or secret is missing or
empty, checked in that order. -/
def AccessToken.create (accountSid keySid secret : Option String)
    (identity : String) (ttl : Nat) : Except String AccessToken :=
  match accountSid, keySid, secret with
  | some a, some k, some s =>
    if a == "" then .error "accountSid is required"
    else if k == "" then .error "keySid is required"
    else if s == "" then .error "secret is required"
    else .ok { accountSid := a, keySid := k, secret := s,
               identity := identity, ttl := ttl, grants := [] }
  | none, _, _ => .error "accountSid is required"
  | _, none, _ => .error "keySid is required"
  | _, _, none => .error "secret is required"

def AccessToken.addGrant (t : AccessToken) (g : VoiceGrant) : AccessToken :=
  { t with grants := t.grants ++ [g] }

/-- The claims carried by the issued token. -/
structure JwtPayload where
  iss : String
  sub : String
  identity : String
  iat : Nat
  exp : Nat
  grants : List VoiceGrant
deriving DecidableEq

/-- Modelled from the spec: the payload the SDK signs, with issued-at equal
to the issuance time and expiry equal to issuance time plus ttl. -/
def AccessToken.payload (t : AccessToken) (now : Nat) : JwtPayload :=
  { iss := t.keySid, sub := t.accountSid, identity := t.identity,
    iat := now, exp := now + t.ttl, grants := t.grants }

def grantClaim (g : VoiceGrant) : String :=
  "voice.outgoing_application_sid=" ++ g.outgoingApplicationSid.getD "" ++
  ";voice.incoming.allow=" ++ (if g.incomingAllow then "true" else "false")

def serializePayload (p : JwtPayload) : String :=
  "iss=" ++ p.iss ++ ";sub=" ++ p.sub ++ ";identity=" ++ p.identity ++
  ";iat=" ++ toString p.iat ++ ";exp=" ++ toString p.exp ++
  ";grants=" ++ String.intercalate "," (p.grants.map grantClaim)

/-- The fixed JWT header for the provider token type. -/
def jwtHeader : String := "alg=HS256;typ=JWT;cty=twilio-fpa-v1"

/-- Modelled from the spec: signing is local and cryptographic (out of
scope, section 4.1); the signature is an opaque string determined by the
secret and the signed input. -/
def signWith (secret signingInput : String) : String :=
  "hmacsha256(" ++ secret ++ "," ++ signingInput ++ ")"

/-- Modelled from the spec: compact JWT serialization, a dot-separated
header, payload and signature; always non-empty. -/
def AccessToken.toJwt (t : AccessToken) (now : Nat) : String :=
  jwtHeader ++ "." ++ serializePayload (t.payload now) ++ "." ++
    signWith t.secret (jwtHeader ++ "." ++ serializePayload (t.payload now))

structure TokenBody where
  token : String
deriving DecidableEq

structure TokenHttpResponse where
  status : Nat
  body : TokenBody
deriving DecidableEq

/-- An incoming GET /token request; the handler consumes none of it. -/
structure HttpRequest where
  query : List (String × String)
  headers : List (String × String)
deriving DecidableEq

/-- The two persisted collections. -/
structure DB where
  callLogs : List CallLogRecord
  objections : List ObjectionRecord
deriving DecidableEq

/-- The GET /token handler (lines 82-103): fixed identity "caller", a voice
grant with outgoingApplicationSid = TWILIO_APP_SID and incomingAllow = true,
a token with ttl 3600 seconds, and a 200 response carrying the serialized
token. The store is untouched and no external call is made; a constructor
rejection (absent signing configuration) propagates as a thrown error. -/
def handleToken (env : Env) (now : Nat) (req : HttpRequest) (db : DB) :
    Except String (TokenHttpResponse × DB) :=
  let identity := "caller"
  let voiceGrant : VoiceGrant :=
    { outgoingApplicationSid := env.TWILIO_APP_SID, incomingAllow := true }
  match AccessToken.create env.TWILIO_ACCOUNT_SID env.TWILIO_API_KEY
      env.TWILIO_API_SECRET identity 3600 with
  | .error e => .error e
  | .ok token0 =>
    let token := token0.addGrant voiceGrant
    .ok ({ status := 200, body := { token := token.toJwt now } }, db)

/-! ## Realtime objection bridge (lines 135-169)

The completion service is an external collaborator; its outcome for one
call is an oracle value: either the call throws (network or service error)
or it returns a list of choices, each choice carrying message content that
is a string or null. A store write may also fail for infrastructure
reasons; that is a second oracle flag consumed by the one awaited save. -/

inductive CompletionResult where
  | serviceError
  | completion (choices : List (Option String))
deriving DecidableEq

/-- Field values passed to the Objection document constructor at line 155;
the response field is the completion content, possibly null. -/
structure ObjectionInput where
  message : String
  response : Option String
deriving DecidableEq

/-- Required-field validation of objectionSchema: message and response must
be present and non-empty strings. -/
def validateObjection (d : ObjectionInput) : Except SaveError ObjectionRecord :=
  match d.response with
  | some r =>
    if d.message == "" || r == "" then .error .validationError
    else .ok { message := d.message, response := r }
  | none => .error .validationError

/-- objection.save() at line 156 on a new document: validate, then insert
(appending; the collection has no natural key), failing when the
infrastructure write fails. -/
def saveObjection (db : List ObjectionRecord) (d : ObjectionInput)
    (dbFault : Bool) : Except SaveError (ObjectionRecord × List ObjectionRecord) :=
  match validateObjection d with
  | .error e => .error e
  | .ok r => if dbFault then .error .writeError else .ok (r, db ++ [r])

/-- Observable actions of one objection round trip, in program order: a
successful awaited save of an Objection record, and an emit of a named
event with a string payload to one socket. -/
inductive Event where
  | savedObjection (r : ObjectionRecord)
  | emit (socketId : Nat) (event : String) (payload : String)
deriving DecidableEq

/-- The socket.on("objection") handler (lines 139-164): call the completion
service; read choices[0].message.content (an absent first choice throws, a
null content fails the subsequent save validation); persist the exchange
with the save awaited; then emit the suggestion to the originating socket.
Any thrown error lands in the catch, which emits the fixed failure string
to the same socket and leaves the collection unchanged. -/
def handleObjection (socketId : Nat) (message : String)
    (completion : CompletionResult) (dbFault : Bool)
    (db : List ObjectionRecord) : List Event × List ObjectionRecord :=
  match completion with
  | .serviceError =>
    ([.emit socketId "suggestion" "Failed to generate suggestion."], db)
  | .completion choices =>
    match choices.head? with
    | none =>
      ([.emit socketId "suggestion" "Failed to generate suggestion."], db)
    | some suggestion =>
      match saveObjection db { message := message, response := suggestion } dbFault with
      | .error _ =>
        ([.emit socketId "suggestion" "Failed to generate suggestion."], db)
      | .ok (r, db2) =>
        ([.savedObjection r, .emit socketId "suggestion" r.response], db2)

/-- The suggestion emissions of a trace, as pairs of target socket and
payload. -/
def suggestions (tr : List Event) : List (Nat × String) :=
  tr.filterMap fun e =>
    match e with
    | .emit s n p => if n == "suggestion" then some (s, p) else none
    | .savedObjection _ => none

/-- The targets of all emits of a trace, of any event name. -/
def emitTargets (tr : List Event) : List Nat :=
  tr.filterMap fun e =>
    match e with
    | .emit s _ _ => some s
    | .savedObjection _ => none

/-! ## Concrete environments used by the startup and token theorems -/

/-- A startup environment in which every variable the startup code checks is
present but the signing credentials (API key and secret) and the outbound
application sid are absent. -/
def envMissingSigning : Env :=
  { MONGO_URI := some "mongodb://localhost/sales",
    TWILIO_ACCOUNT_SID := some "AC1",
    TWILIO_AUTH_TOKEN := some "auth1",
    TWILIO_API_KEY := none,
    TWILIO_API_SECRET := none,
    TWILIO_APP_SID := none,
    TWILIO_PHONE_NUMBER := some "+15550001111",
    OPENAI_API_KEY := some "sk-test",
    FRONTEND_URL := none,
    PORT := none }

/-- A fully configured startup environment. -/
def envFull : Env :=
  { MONGO_URI := some "mongodb://localhost/sales",
    TWILIO_ACCOUNT_SID := some "AC1",
    TWILIO_AUTH_TOKEN := some "auth1",
    TWILIO_API_KEY := some "SK1",
    TWILIO_API_SECRET := some "secret1",
    TWILIO_APP_SID := some "AP1",
    TWILIO_PHONE_NUMBER := some "+15550001111",
    OPENAI_API_KEY := some "sk-test",
    FRONTEND_URL := none,
    PORT := none }

/-! ## Helper lemmas -/

theorem append_ne_empty_left (s t : String) (h : s ≠ "") : s ++ t ≠ "" := by
  intro he
  apply h
  have hd : s.data ++ t.data = [] := by
    have h2 := congrArg String.data he
    simpa [String.data_append] using h2
  have h3 : s.data = [] := (List.append_eq_nil.mp hd).1
  apply String.ext
  simpa using h3

theorem toJwt_ne_empty (t : AccessToken) (now : Nat) :
    AccessToken.toJwt t now ≠ "" := by
  rw [AccessToken.toJwt]
  apply append_ne_empty_left
  apply append_ne_empty_left
  apply append_ne_empty_left
  apply append_ne_empty_left
  decide

theorem any_id_eq_false {db : List CallLogRecord} {sid : String}
    (h : db.all (fun r => r._id != sid) = true) :
    db.any (fun r => r._id == sid) = false := by
  rw [List.all_eq_true] at h
  rw [List.any_eq_false]
  intro r hr
  have h2 := h r hr
  simpa using h2

theorem filter_id_eq_nil {db : List CallLogRecord} {sid : String}
    (h : db.all (fun r => r._id != sid) = true) :
    db.filter (fun r => r._id == sid) = [] := by
  rw [List.all_eq_true] at h
  rw [List.filter_eq_nil_iff]
  intro r hr
  have h2 := h r hr
  simpa using h2

/-! ## Claim theorems -/

/-- C4: for every valid call-routing request (To present, non-empty, not
client-prefixed, non-empty call identifier not already in the collection), a
CallLog record is created with status "initiated" and phoneNumber equal to
To, and the routing document dials To presenting the configured provisioned
number as caller id. -/
theorem C4_valid_request_creates_log (phone toNum sid : String)
    (db : List CallLogRecord)
    (hvalid : toInvalid (some toNum) = false)
    (hsid : (sid == "") = false)
    (hfresh : db.all (fun r => r._id != sid) = true) :
    handleVoice phone db { To := some toNum, CallSid := some sid } =
      ({ status := 200, contentType := "text/xml",
         body := { dial := { callerId := phone, number := some toNum } } },
       db ++ [{ _id := sid, phoneNumber := toNum, status := "initiated",
                duration := none }]) := by
  have hto : (toNum == "") = false ∧ startsWithClient toNum = false := by
    simpa [toInvalid, Bool.or_eq_false_iff] using hvalid
  have hany := any_id_eq_false hfresh
  simp [handleVoice, saveCallLog, validateCallLog, hsid, hto.1, hany]

/-- Witness for C4 at the concrete request of the spec scenario. -/
theorem C4_valid_request_creates_log_witness :
    handleVoice "+15550001111" [] { To := some "+15551234567", CallSid := some "CA123" } =
      ({ status := 200, contentType := "text/xml",
         body := { dial := { callerId := "+15550001111",
                             number := some "+15551234567" } } },
       [{ _id := "CA123", phoneNumber := "+15551234567", status := "initiated",
          duration := none }]) :=
  C4_valid_request_creates_log "+15550001111" "+15551234567" "CA123" []
    (by decide) (by decide) (by decide)

/-- C6: every POST /voice request, including one with a missing To, a
client-prefixed To, or a failing CallLog save, is answered 200 with
Content-Type text/xml and a dial-routing document presenting the provisioned
number; the response never depends on the validation outcome or on the
persistence outcome. -/
theorem C6_voice_always_200_xml_dial (phone : String) (db : List CallLogRecord)
    (req : VoiceRequest) :
    (handleVoice phone db req).1 =
      { status := 200, contentType := "text/xml",
        body := { dial := { callerId := phone, number := req.To } } } := rfl

/-- C9: token issuance reads nothing from the incoming request, so two
invocations of the /token handler under the same environment, issuance time
and store state produce identical results whatever the requests are. -/
theorem C9_token_request_noninterference (env : Env) (now : Nat)
    (r1 r2 : HttpRequest) (db : DB) :
    handleToken env now r1 db = handleToken env now r2 db := rfl

/-- C3: when the completion service call fails, the emitted suggestion is
exactly the string "Failed to generate suggestion." on the originating
socket and the objection collection is unchanged. -/
theorem C3_completion_failure_fixed_string (sid : Nat) (message : String)
    (dbFault : Bool) (db : List ObjectionRecord) :
    handleObjection sid message .serviceError dbFault db =
      ([.emit sid "suggestion" "Failed to generate suggestion."], db) := rfl

/-- C5: for an objection whose completion call succeeds with non-empty
content and a non-empty message, the Objection record with that message and
response is persisted, the save precedes the emit in the trace, and the one
suggestion is emitted to the originating socket only; a failing save at
this step instead surfaces as the failure emission with the collection
unchanged. -/
theorem C5_success_persists_then_emits (sid : Nat) (message s : String)
    (rest : List (Option String)) (db : List ObjectionRecord)
    (hm : (message == "") = false) (hs : (s == "") = false) :
    handleObjection sid message (.completion (some s :: rest)) false db =
      ([.savedObjection { message := message, response := s },
        .emit sid "suggestion" s],
       db ++ [{ message := message, response := s }]) ∧
    handleObjection sid message (.completion (some s :: rest)) true db =
      ([.emit sid "suggestion" "Failed to generate suggestion."], db) := by
  constructor <;> simp [handleObjection, saveObjection, validateObjection, hm, hs]

/-- Witness for C5 at the concrete objection of the spec scenario. -/
theorem C5_success_persists_then_emits_witness :
    handleObjection 1 "price is too high"
        (.completion [some "Emphasize the long-term value."]) false [] =
      ([.savedObjection { message := "price is too high",
                          response := "Emphasize the long-term value." },
        .emit 1 "suggestion" "Emphasize the long-term value."],
       [{ message := "price is too high",
          response := "Emphasize the long-term value." }]) :=
  (C5_success_persists_then_emits 1 "price is too high"
    "Emphasize the long-term value." [] [] (by decide) (by decide)).1

/-- C8: for every inbound objection event, the handler emits exactly one
suggestion event, and every emit of the round trip targets the originating
socket, whatever the completion outcome (service error, empty choices list,
null content) and whatever the store write outcome. -/
theorem C8_exactly_one_suggestion (sid : Nat) (message : String)
    (c : CompletionResult) (dbFault : Bool) (db : List ObjectionRecord) :
    (suggestions (handleObjection sid message c dbFault db).1).length = 1 ∧
    emitTargets (handleObjection sid message c dbFault db).1 = [sid] := by
  cases c with
  | serviceError => simp [handleObjection, suggestions, emitTargets]
  | completion choices =>
    cases choices with
    | nil => simp [handleObjection, suggestions, emitTargets]
    | cons hd tl =>
      cases hd with
      | none =>
        simp [handleObjection, suggestions, emitTargets, saveObjection,
          validateObjection]
      | some s =>
        rcases hsave : saveObjection db { message := message, response := some s }
            dbFault with e | pr
        · simp [handleObjection, hsave, suggestions, emitTargets]
        · obtain ⟨r, db2⟩ := pr
          simp [handleObjection, hsave, suggestions, emitTargets]

/-- C1 counterexample: two routing requests carry the same call identifier
CA1 but different To numbers; after both, the stored record still holds the
first request's number, so the second request did not overwrite the record.
Exactly one record with that id exists, but by rejection of the duplicate
insert, not by overwrite. -/
theorem C1_no_overwrite_counterexample :
    (handleVoice "+15550001111"
        ((handleVoice "+15550001111" []
            { To := some "+15551234567", CallSid := some "CA1" }).2)
        { To := some "+15559999999", CallSid := some "CA1" }).2 =
      [{ _id := "CA1", phoneNumber := "+15551234567", status := "initiated",
         duration := none }] ∧
    ¬ (handleVoice "+15550001111"
        ((handleVoice "+15550001111" []
            { To := some "+15551234567", CallSid := some "CA1" }).2)
        { To := some "+15559999999", CallSid := some "CA1" }).2 =
      [{ _id := "CA1", phoneNumber := "+15559999999", status := "initiated",
         duration := none }] := by decide

/-- C1 amended: re-submitting a routing request with the same call
identifier leaves the collection exactly as after the first request: the
duplicate save fails with a duplicate-key error (logged and swallowed), so
after both requests exactly one CallLog record with that id exists, holding
the first request's data rather than an overwrite by the second. -/
theorem C1_duplicate_sid_single_record (phone to1 to2 sid : String)
    (db : List CallLogRecord)
    (h1 : toInvalid (some to1) = false)
    (h2 : toInvalid (some to2) = false)
    (hsid : (sid == "") = false)
    (hfresh : db.all (fun r => r._id != sid) = true) :
    (handleVoice phone ((handleVoice phone db
        { To := some to1, CallSid := some sid }).2)
        { To := some to2, CallSid := some sid }).2 =
      db ++ [{ _id := sid, phoneNumber := to1, status := "initiated",
               duration := none }] ∧
    (db ++ [({ _id := sid, phoneNumber := to1, status := "initiated",
               duration := none } : CallLogRecord)]).filter
        (fun r => r._id == sid) =
      [{ _id := sid, phoneNumber := to1, status := "initiated",
         duration := none }] ∧
    saveCallLog
      (db ++ [{ _id := sid, phoneNumber := to1, status := "initiated",
                duration := none }])
      { _id := some sid, phoneNumber := some to2, status := some "initiated" } =
      .error .duplicateKeyError := by
  have hto1 : (to1 == "") = false :=
    (by simpa [toInvalid, Bool.or_eq_false_iff] using h1 :
      (to1 == "") = false ∧ startsWithClient to1 = false).1
  have hto2 : (to2 == "") = false :=
    (by simpa [toInvalid, Bool.or_eq_false_iff] using h2 :
      (to2 == "") = false ∧ startsWithClient to2 = false).1
  have hany := any_id_eq_false hfresh
  have hfil := filter_id_eq_nil hfresh
  have hdb1 : (handleVoice phone db { To := some to1, CallSid := some sid }).2 =
      db ++ [{ _id := sid, phoneNumber := to1, status := "initiated",
               duration := none }] := by
    simp [handleVoice, saveCallLog, validateCallLog, hsid, hto1, hany]
  refine ⟨?_, ?_, ?_⟩
  · rw [hdb1]
    simp [handleVoice, saveCallLog, validateCallLog, hsid, hto2,
      List.any_append, hany]
  · rw [List.filter_append, hfil]
    simp
  · simp [saveCallLog, validateCallLog, hsid, hto2, List.any_append, hany]

/-- Witness for the amended C1 at concrete requests. -/
theorem C1_duplicate_sid_single_record_witness :
    (handleVoice "+15550001111" ((handleVoice "+15550001111" []
        { To := some "+15551234567", CallSid := some "CA123" }).2)
        { To := some "+15559999999", CallSid := some "CA123" }).2 =
      [{ _id := "CA123", phoneNumber := "+15551234567", status := "initiated",
         duration := none }] ∧
    ([{ _id := "CA123", phoneNumber := "+15551234567", status := "initiated",
        duration := none }] : List CallLogRecord).filter
        (fun r => r._id == "CA123") =
      [{ _id := "CA123", phoneNumber := "+15551234567", status := "initiated",
         duration := none }] ∧
    saveCallLog
      [{ _id := "CA123", phoneNumber := "+15551234567", status := "initiated",
         duration := none }]
      { _id := some "CA123", phoneNumber := some "+15559999999",
        status := some "initiated" } =
      .error .duplicateKeyError :=
  C1_duplicate_sid_single_record "+15550001111" "+15551234567" "+15559999999"
    "CA123" [] (by decide) (by decide) (by decide) (by decide)

/-- C2 counterexample: in an environment where the signing credentials (API
key and secret) and the outbound application sid are all absent but the
startup-checked variables are present, the process does not exit at
startup, contrary to the claim that absence of any signing credential
refuses startup. -/
theorem C2_missing_signing_starts_counterexample :
    falsy envMissingSigning.TWILIO_API_KEY = true ∧
    falsy envMissingSigning.TWILIO_API_SECRET = true ∧
    falsy envMissingSigning.TWILIO_APP_SID = true ∧
    startupExits envMissingSigning = false := by decide

/-- C2 amended: the process refuses to start exactly when MONGO_URI,
TWILIO_ACCOUNT_SID, TWILIO_AUTH_TOKEN, TWILIO_PHONE_NUMBER or
OPENAI_API_KEY is absent or empty; the signing credentials TWILIO_API_KEY
and TWILIO_API_SECRET and the outbound application sid TWILIO_APP_SID are
not checked at startup, so their absence never affects the startup
outcome. -/
theorem C2_startup_checks_amended (env : Env) (k2 s2 p2 : Option String) :
    startupExits
        { env with
          TWILIO_API_KEY := k2
          TWILIO_API_SECRET := s2
          TWILIO_APP_SID := p2 } = startupExits env ∧
    (startupExits env = false ↔
      (falsy env.MONGO_URI = false ∧ falsy env.TWILIO_ACCOUNT_SID = false ∧
       falsy env.TWILIO_AUTH_TOKEN = false ∧
       falsy env.TWILIO_PHONE_NUMBER = false ∧
       falsy env.OPENAI_API_KEY = false)) := by
  refine ⟨rfl, ?_⟩
  simp [startupExits, Bool.or_eq_false_iff, and_assoc]

/-- C7: with the signing configuration present, GET /token answers 200 with
a non-empty serialized token built for the fixed identity caller, a
validity window of exactly 3600 seconds from issuance (issued-at now,
expiry now + 3600), and a single voice grant authorizing outgoing calls to
the configured application and incoming calls in general; the store is
returned unchanged (no persistence, no external call). -/
theorem C7_token_issuance (env : Env) (now : Nat) (req : HttpRequest)
    (db : DB) (a k s : String)
    (ha : env.TWILIO_ACCOUNT_SID = some a) (ha2 : (a == "") = false)
    (hk : env.TWILIO_API_KEY = some k) (hk2 : (k == "") = false)
    (hs : env.TWILIO_API_SECRET = some s) (hs2 : (s == "") = false) :
    handleToken env now req db =
      .ok ({ status := 200,
             body := { token :=
                 (AccessToken.toJwt
                   ⟨a, k, s, "caller", 3600,
                    [⟨env.TWILIO_APP_SID, true⟩]⟩ now) } }, db) ∧
    AccessToken.toJwt
      ⟨a, k, s, "caller", 3600, [⟨env.TWILIO_APP_SID, true⟩]⟩ now ≠ "" ∧
    (AccessToken.payload
      ⟨a, k, s, "caller", 3600, [⟨env.TWILIO_APP_SID, true⟩]⟩ now).iat = now ∧
    (AccessToken.payload
      ⟨a, k, s, "caller", 3600, [⟨env.TWILIO_APP_SID, true⟩]⟩ now).exp =
      now + 3600 ∧
    (AccessToken.payload
      ⟨a, k, s, "caller", 3600, [⟨env.TWILIO_APP_SID, true⟩]⟩ now).identity =
      "caller" := by
  refine ⟨?_, toJwt_ne_empty _ _, rfl, rfl, rfl⟩
  simp [handleToken, AccessToken.create, ha, hk, hs, ha2, hk2, hs2,
    AccessToken.addGrant]

/-- Witness for C7 at a fully configured environment. -/
theorem C7_token_issuance_witness :
    handleToken envFull 1000 { query := [], headers := [] }
        { callLogs := [], objections := [] } =
      .ok ({ status := 200,
             body := { token :=
                 (AccessToken.toJwt
                   ⟨"AC1", "SK1", "secret1", "caller", 3600,
                    [⟨envFull.TWILIO_APP_SID, true⟩]⟩ 1000) } },
           { callLogs := [], objections := [] }) :=
  (C7_token_issuance envFull 1000 { query := [], headers := [] }
    { callLogs := [], objections := [] } "AC1" "SK1" "secret1"
    rfl (by decide) rfl (by decide) rfl (by decide)).1

/-- C10: a record reaches the CallLog collection only with string id,
string phoneNumber and status "initiated" (first conjunct: the collection is
unchanged or extended by exactly one such record built from the request
fields); a request missing To or missing CallSid never creates a record,
while the handler still answers 200 with the routing document. -/
theorem C10_persisted_records_wellformed (phone : String)
    (db : List CallLogRecord) (req : VoiceRequest) :
    ((handleVoice phone db req).2 = db ∨
      (∃ i p, req.CallSid = some i ∧ req.To = some p ∧
        (handleVoice phone db req).2 =
          db ++ [{ _id := i, phoneNumber := p, status := "initiated",
                   duration := none }])) ∧
    (handleVoice phone db { To := none, CallSid := req.CallSid }).2 = db ∧
    (handleVoice phone db { To := req.To, CallSid := none }).2 = db ∧
    (handleVoice phone db { To := none, CallSid := req.CallSid }).1.status =
      200 ∧
    (handleVoice phone db { To := req.To, CallSid := none }).1.status = 200 := by
  obtain ⟨To, CallSid⟩ := req
  refine ⟨?_, ?_, ?_, rfl, rfl⟩
  · cases CallSid with
    | none => exact Or.inl (by simp [handleVoice, saveCallLog, validateCallLog])
    | some i =>
      cases To with
      | none =>
        exact Or.inl (by simp [handleVoice, saveCallLog, validateCallLog])
      | some p =>
        by_cases hi : (i == "") = true
        · exact Or.inl
            (by simp [handleVoice, saveCallLog, validateCallLog, hi])
        · by_cases hp : (p == "") = true
          · exact Or.inl
              (by simp [handleVoice, saveCallLog, validateCallLog, hp])
          · by_cases hany : db.any (fun x => x._id == i) = true
            · exact Or.inl (by
                rw [Bool.not_eq_true] at hi hp
                simp [handleVoice, saveCallLog, validateCallLog, hi, hp, hany])
            · refine Or.inr ⟨i, p, rfl, rfl, ?_⟩
              rw [Bool.not_eq_true] at hi hp hany
              simp [handleVoice, saveCallLog, validateCallLog, hi, hp, hany]
  · cases CallSid with
    | none => simp [handleVoice, saveCallLog, validateCallLog]
    | some i => simp [handleVoice, saveCallLog, validateCallLog]
  · cases To with
    | none => simp [handleVoice, saveCallLog, validateCallLog]
    | some p => simp [handleVoice, saveCallLog, validateCallLog]

end SalesTool
